import Mathlib

set_option autoImplicit false

/-!
Shallow embedding of the fiscal-receipt core of the repository:
the Ferma OFD client retry loop (`bot/services/ferma_ofd_service.py`),
the receipt store (`db/repositories/receipts_repo.py`), the orchestrator and
fallback poll (`bot/services/fiscalization_service.py`), and the webhook
ingest handler (`bot/services/ferma_webhook_service.py`).

Machine-level conventions: JSON scalar values that the code probes with
`int(...)` / `str(...)` are modeled by `PyVal` (integers and strings, the
shapes the webhook and status endpoints deliver); Python truthiness on
optional strings is `truthy`; the SQLAlchemy session is modeled as a list of
receipt rows with read-your-write visibility, where a flushed mutation
replaces the row with the same unique `payment_id`.
-/

namespace Shop

/-- JSON scalar as probed by the Python code: an integer or a string. -/
inductive PyVal where
  | int (n : Int)
  | str (s : String)
deriving DecidableEq, Repr

/-- Digits-only parse helper: `some` value iff the list is nonempty and all
decimal digits. -/
def pyDigits (l : List Char) : Option Nat :=
  if l ≠ [] ∧ l.all (fun c => c.isDigit) then
    some (l.foldl (fun acc c => acc * 10 + (c.toNat - 48)) 0)
  else none

/-- Python `str.strip()` on a character list: whitespace removed from both
ends. -/
def stripWs (l : List Char) : List Char :=
  ((l.dropWhile (fun c => c.isWhitespace)).reverse.dropWhile
    (fun c => c.isWhitespace)).reverse

/-- ASCII upper-casing of one character, as `str.upper()` acts on the inputs
that occur here. -/
def upperAscii (c : Char) : Char :=
  if c.toNat ≥ 97 && c.toNat ≤ 122 then Char.ofNat (c.toNat - 32) else c

/-- Python slicing `s[:n]`. -/
def pyTake (s : String) (n : Nat) : String :=
  String.mk (s.data.take n)

/-- Model of Python `int(s)` on a string: surrounding whitespace is stripped,
an optional single sign is accepted, then a nonempty run of decimal digits. -/
def pyIntOfString (s : String) : Option Int :=
  match stripWs s.data with
  | '-' :: rest => (pyDigits rest).map (fun n => -(n : Int))
  | '+' :: rest => (pyDigits rest).map (fun n => (n : Int))
  | rest => (pyDigits rest).map (fun n => (n : Int))

/-- Model of Python `int(v)` on a JSON scalar: integers pass through, strings
go through the string parse. -/
def pyInt : PyVal → Option Int
  | .int n => some n
  | .str s => pyIntOfString s

/-- Python truthiness of an optional string (`None` and `""` are falsy). -/
def truthy : Option String → Bool
  | none => false
  | some s => !(s == "")

/-- Python `x or default` on an optional string. -/
def pyOrStr (v : Option String) (d : String) : String :=
  match v with
  | some s => if s == "" then d else s
  | none => d

/-- First-non-None choice, as produced by
`_get(payload, "Data", k, default=_get(payload, k))`. -/
def orO {α : Type} (a b : Option α) : Option α :=
  match a with
  | some x => some x
  | none => b

/-- Receipt lifecycle states (`db.models.ReceiptStatus`, as used by
`ReceiptsRepo` and both services). -/
inductive ReceiptStatus where
  | NEW
  | SENT
  | PROCESSED
  | CONFIRMED
  | KKT_ERROR
  | FAILED
  | DUPLICATE
deriving DecidableEq, Repr

/-- One persisted receipt row (`db.models.PaymentReceipt`), restricted to the
columns the core services read or write. -/
structure PaymentReceipt where
  payment_id : String
  invoice_id : String
  receipt_id : Option String
  amount : ℚ
  description : String
  customer_email : Option String
  customer_phone : Option String
  status : ReceiptStatus
  ofd_receipt_url : Option String
  last_error : Option String
deriving DecidableEq, Repr

/-- The receipt table, in insertion order. -/
abbrev Store : Type := List PaymentReceipt

/-- `ReceiptsRepo.get_by_payment_id`. -/
def get_by_payment_id (db : Store) (pid : String) : Option PaymentReceipt :=
  List.find? (fun r => r.payment_id == pid) db

/-- `ReceiptsRepo.get_by_invoice_id`. -/
def get_by_invoice_id (db : Store) (inv : String) : Option PaymentReceipt :=
  List.find? (fun r => r.invoice_id == inv) db

/-- `ReceiptsRepo.get_by_receipt_id`. -/
def get_by_receipt_id (db : Store) (rid : String) : Option PaymentReceipt :=
  List.find? (fun r => r.receipt_id == some rid) db

/-- A flushed mutation of a loaded row: the row with the same unique
`payment_id` is replaced by the mutated object. -/
def setReceipt (db : Store) (pr : PaymentReceipt) : Store :=
  List.map (fun r => if r.payment_id == pr.payment_id then pr else r) db

/-- `ReceiptsRepo.create_new`: a fresh NEW row appended to the table. -/
def create_new (pid inv : String) (amount : ℚ) (description : String)
    (email phone : Option String) : PaymentReceipt :=
  { payment_id := pid
    invoice_id := inv
    receipt_id := none
    amount := amount
    description := pyOrStr (some description) ""
    customer_email := email
    customer_phone := phone
    status := ReceiptStatus.NEW
    ofd_receipt_url := none
    last_error := none }

/-- `ReceiptsRepo.mark_sent`: status SENT, stores the remote receipt id, and
overwrites `invoice_id` when the service returned a truthy one. -/
def mark_sent (pr : PaymentReceipt) (rid : Option String)
    (new_invoice_id : Option String) : PaymentReceipt :=
  { pr with
    status := ReceiptStatus.SENT
    receipt_id := rid
    invoice_id := if truthy new_invoice_id then new_invoice_id.getD pr.invoice_id
                  else pr.invoice_id }

/-- `ReceiptsRepo.mark_confirmed`: status CONFIRMED, stores the OFD url,
clears `last_error`. -/
def mark_confirmed (pr : PaymentReceipt) (ofd : Option String) : PaymentReceipt :=
  { pr with
    status := ReceiptStatus.CONFIRMED
    ofd_receipt_url := ofd
    last_error := none }

/-- `ReceiptsRepo.mark_processed`. -/
def mark_processed (pr : PaymentReceipt) : PaymentReceipt :=
  { pr with status := ReceiptStatus.PROCESSED }

/-- `ReceiptsRepo.mark_failed` (error text truncated to 4000 characters). -/
def mark_failed (pr : PaymentReceipt) (err : String) : PaymentReceipt :=
  { pr with status := ReceiptStatus.FAILED, last_error := some (pyTake err 4000) }

/-- `ReceiptsRepo.mark_kkt_error` (error text truncated to 4000 characters). -/
def mark_kkt_error (pr : PaymentReceipt) (err : String) : PaymentReceipt :=
  { pr with status := ReceiptStatus.KKT_ERROR, last_error := some (pyTake err 4000) }

/-- `ReceiptsRepo.mark_duplicate`. -/
def mark_duplicate (pr : PaymentReceipt) : PaymentReceipt :=
  { pr with status := ReceiptStatus.DUPLICATE }

/-! ## Webhook ingest endpoint (`ferma_webhook_service.py`) -/

/-- One trusted network from `FERMA_TRUSTED_CIDRS`: an IPv4 network address
and a mask length, both as numbers. -/
structure Cidr where
  addr : Nat
  maskLen : Nat
deriving DecidableEq, Repr

/-- Membership of an address in a network (`ip in net` of the `ipaddress`
module, for IPv4): the two addresses agree on the first `maskLen` bits. -/
def ip_in_net (ip : Nat) (c : Cidr) : Bool :=
  ip / 2 ^ (32 - c.maskLen) == c.addr / 2 ^ (32 - c.maskLen)

/-- `_ip_allowed`: an empty allow-list accepts everything; otherwise a missing
peer address is rejected and a present one must fall inside some network. -/
def ip_allowed (cidrs : List Cidr) (peer : Option Nat) : Bool :=
  if cidrs.isEmpty then true
  else
    match peer with
    | none => false
    | some ip => cidrs.any (fun c => ip_in_net ip c)

/-- The `Device` object of a callback body. -/
structure Device where
  ofdReceiptUrl : Option String
deriving DecidableEq, Repr

/-- The fields the handler probes, as they may appear under the `Data` root. -/
structure DataBlock where
  statusCode : Option PyVal
  invoiceId : Option String
  receiptId : Option String
  device : Option Device
deriving DecidableEq, Repr

/-- A parsed callback body: the handler supports both the `Data`-rooted and
the flat style, so both levels are present. -/
structure Payload where
  data : Option DataBlock
  statusCode : Option PyVal
  invoiceId : Option String
  receiptId : Option String
  device : Option Device
deriving DecidableEq, Repr

/-- `_as_int_status`: direct `int(...)` first, then the alias table on the
stripped upper-cased string, then one more `int(...)` on that string. -/
def as_int_status : Option PyVal → Option Int
  | none => none
  | some (.int n) => some n
  | some (.str s) =>
    match pyIntOfString s with
    | some n => some n
    | none =>
      let u : List Char := (stripWs s.data).map upperAscii
      if u == "CONFIRMED".data then some 2
      else if u == "PROCESSED".data then some 1
      else if u == "KKT_ERROR".data then some 3
      else if u == "NEW".data then some 0
      else pyIntOfString (String.mk u)

/-- Rendering of an optional string inside `str(payload)` text. -/
def optText : Option String → String
  | none => "None"
  | some s => s

/-- Rendering of a JSON scalar inside `str(payload)` text. -/
def pyValText : Option PyVal → String
  | none => "None"
  | some (.int n) => toString n
  | some (.str s) => s

/-- Rendering of a `Device` block inside `str(payload)` text. -/
def deviceText : Option Device → String
  | none => "None"
  | some d => "\x7bOfdReceiptUrl: " ++ optText d.ofdReceiptUrl ++ "\x7d"

/-- Rendering of a `Data` block inside `str(payload)` text. -/
def dataBlockText : Option DataBlock → String
  | none => "None"
  | some d =>
    "\x7bStatusCode: " ++ pyValText d.statusCode ++ ", InvoiceId: " ++
      optText d.invoiceId ++ ", ReceiptId: " ++ optText d.receiptId ++
      ", Device: " ++ deviceText d.device ++ "\x7d"

/-- Model of `str(payload)`, the text `mark_kkt_error` persists as the error;
its exact shape is irrelevant to every transition, only that it is a
serialization of the callback body. -/
def payloadText (p : Payload) : String :=
  "\x7bData: " ++ dataBlockText p.data ++ ", StatusCode: " ++
    pyValText p.statusCode ++ ", InvoiceId: " ++ optText p.invoiceId ++
    ", ReceiptId: " ++ optText p.receiptId ++ ", Device: " ++
    deviceText p.device ++ "\x7d"

/-- The JSON diagnostic answer of the webhook handler, restricted to the
fields the handler actually sets. -/
structure WebhookResp where
  httpStatus : Nat
  ok : Bool
  ignored : Bool
  error : Option String
  reason : Option String
  branch : Option String
  repo_action : Option String
deriving DecidableEq, Repr

/-- The 403 body `{ok: False, error: "forbidden"}`. -/
def respForbidden : WebhookResp :=
  { httpStatus := 403, ok := false, ignored := false, error := some "forbidden"
    reason := none, branch := none, repo_action := none }

/-- The 400 body `{ok: False, error: "invalid_json"}`. -/
def respInvalidJson : WebhookResp :=
  { httpStatus := 400, ok := false, ignored := false
    error := some "invalid_json", reason := none, branch := none
    repo_action := none }

/-- The 400 body `{ok: False, error: "missing_invoice_and_receipt"}`. -/
def respMissingIds : WebhookResp :=
  { httpStatus := 400, ok := false, ignored := false
    error := some "missing_invoice_and_receipt", reason := none, branch := none
    repo_action := none }

/-- The 200 body `{ok: True, ignored: True, reason: "unknown_invoice"}`. -/
def respUnknownInvoice : WebhookResp :=
  { httpStatus := 200, ok := true, ignored := true, error := none
    reason := some "unknown_invoice", branch := none, repo_action := none }

/-- The 200 body `{ok: True, ignored: True, reason: "unknown_status"}`. -/
def respUnknownStatus : WebhookResp :=
  { httpStatus := 200, ok := true, ignored := true, error := none
    reason := some "unknown_status", branch := none, repo_action := none }

/-- The final 200 diagnostic body, parametrized by the branch taken and the
repo action performed. -/
def respHandled (branch : String) (action : Option String) : WebhookResp :=
  { httpStatus := 200, ok := true, ignored := false, error := none
    reason := none, branch := some branch, repo_action := action }

/-- Extraction `_get(payload, "Data", "StatusCode", default=_get(payload,
"StatusCode"))`. -/
def wh_status_raw (p : Payload) : Option PyVal :=
  orO (p.data.bind (fun d => d.statusCode)) p.statusCode

/-- Extraction of `InvoiceId` (under `Data`, else flat). -/
def wh_invoice_id (p : Payload) : Option String :=
  orO (p.data.bind (fun d => d.invoiceId)) p.invoiceId

/-- Extraction of `ReceiptId` (under `Data`, else flat). -/
def wh_receipt_id (p : Payload) : Option String :=
  orO (p.data.bind (fun d => d.receiptId)) p.receiptId

/-- Extraction of `Device.OfdReceiptUrl` (under `Data`, else flat). -/
def wh_ofd_url (p : Payload) : Option String :=
  (orO (p.data.bind (fun d => d.device)) p.device).bind (fun d => d.ofdReceiptUrl)

/-- The lookup block of `ferma_callback`: try `get_by_invoice_id` when the
`InvoiceId` is truthy, then fall back to `get_by_receipt_id` when the
`ReceiptId` is truthy. -/
def wh_resolve (db : Store) (invoice_id receipt_id : Option String) :
    Option PaymentReceipt :=
  let pr0 := if truthy invoice_id then get_by_invoice_id db (invoice_id.getD "")
             else none
  match pr0 with
  | some pr => some pr
  | none =>
    if truthy receipt_id then get_by_receipt_id db (receipt_id.getD "")
    else none

/-- The status dispatch of `ferma_callback` on a resolved receipt: CONFIRMED
(2) stores the url, PROCESSED (1) and KKT_ERROR (3) mark, any other
recognized code only logs. -/
def wh_apply (db : Store) (pr : PaymentReceipt) (status_code : Option Int)
    (ofd_url : Option String) (ptext : String) : WebhookResp × Store :=
  match status_code with
  | none => (respUnknownStatus, db)
  | some sc =>
    if sc == 2 then
      (respHandled "confirmed" (some "mark_confirmed"),
       setReceipt db (mark_confirmed pr ofd_url))
    else if sc == 1 then
      (respHandled "processed" (some "mark_processed"),
       setReceipt db (mark_processed pr))
    else if sc == 3 then
      (respHandled "kkt_error" (some "mark_kkt_error"),
       setReceipt db (mark_kkt_error pr ptext))
    else
      (respHandled ("status_" ++ toString sc) none, db)

/-- `ferma_callback`: the aiohttp handler produced by
`make_ferma_callback_handler`, as a function of the configured allow-list,
the peer address, the parse result of the request body (`none` = unparsable
JSON) and the receipt table. Returns the response and the new table. The
best-effort user notification is an external side effect with no influence
on the table or the response fields modeled here. -/
def ferma_callback (cidrs : List Cidr) (peer : Option Nat)
    (body : Option Payload) (db : Store) : WebhookResp × Store :=
  if !ip_allowed cidrs peer then (respForbidden, db)
  else
    match body with
    | none => (respInvalidJson, db)
    | some payload =>
      let invoice_id := wh_invoice_id payload
      let receipt_id := wh_receipt_id payload
      let ofd_url := wh_ofd_url payload
      let status_code := as_int_status (wh_status_raw payload)
      if !truthy invoice_id && !truthy receipt_id then (respMissingIds, db)
      else
        match wh_resolve db invoice_id receipt_id with
        | none => (respUnknownInvoice, db)
        | some pr => wh_apply db pr status_code ofd_url (payloadText payload)

/-! ## Orchestrator and fallback poll (`fiscalization_service.py`) -/

/-- Python `==` between the raw `StatusCode` value of a status answer and an
integer literal: only an actual JSON integer of that value compares equal
(the fallback poll, unlike the webhook, does not normalize strings). -/
def pyEqInt : Option PyVal → Int → Bool
  | some (.int m), n => m == n
  | _, _ => false

/-- The fallback timing fields of `FermaConfig`. -/
structure FallbackCfg where
  fallback_delay_sec : Int
  fallback_retries : Int
  fallback_interval_sec : Int
deriving DecidableEq, Repr

/-- `FermaConfig.from_settings`, restricted to the fallback fields: each is
`int(setting or 180)` (resp. `or 5`), so an absent or zero setting falls back
to the default. -/
def cfg_from_settings (delay retries interval : Option Int) : FallbackCfg :=
  { fallback_delay_sec := match delay with
      | some n => if n == 0 then 180 else n
      | none => 180
    fallback_retries := match retries with
      | some n => if n == 0 then 5 else n
      | none => 5
    fallback_interval_sec := match interval with
      | some n => if n == 0 then 180 else n
      | none => 180 }

/-- One `checkStatus` answer: the `Data` block of the status endpoint, with
the raw `StatusCode` and the `Device.OfdReceiptUrl` the poll extracts. -/
structure StatusData where
  statusCode : Option PyVal
  ofdUrl : Option String
deriving DecidableEq, Repr

/-- Rendering of `str(data)` as persisted by the KKT_ERROR branch of the
fallback poll. -/
def statusDataText (d : StatusData) : String :=
  "\x7bStatusCode: " ++ pyValText d.statusCode ++
    ", Device: \x7bOfdReceiptUrl: " ++ optText d.ofdUrl ++ "\x7d\x7d"

/-- Whether a status is one of the two terminal states the poll refuses to
overwrite. -/
def isTerminal (s : ReceiptStatus) : Bool :=
  s == ReceiptStatus.CONFIRMED || s == ReceiptStatus.KKT_ERROR

/-- The body of one iteration of `_fallback_poll_status`: load by invoice id,
stop on a missing or terminal row, else apply the status transition. Returns
the new table and whether the loop returns (`true`) or continues (`false`). -/
def fallback_iter (db : Store) (invoice_id : String) (data : StatusData) :
    Store × Bool :=
  match get_by_invoice_id db invoice_id with
  | none => (db, true)
  | some pr =>
    if isTerminal pr.status then (db, true)
    else if pyEqInt data.statusCode 2 then
      (setReceipt db (mark_confirmed pr data.ofdUrl), true)
    else if pyEqInt data.statusCode 1 then
      (setReceipt db (mark_processed pr), false)
    else if pyEqInt data.statusCode 3 then
      (setReceipt db (mark_kkt_error pr (statusDataText data)), true)
    else (db, false)

/-- Observable outcome of a poll run: the final table, how many `checkStatus`
calls were made, and the cooperative sleeps performed, in order. -/
structure PollRun where
  db : Store
  checks : Nat
  sleeps : List Int
deriving DecidableEq, Repr

/-- The `for _ in range(...)` loop of `_fallback_poll_status`: `fuel`
iterations remain, `i` indexes the next `checkStatus` answer, and a sleep of
`interval` follows every iteration that neither stops nor exhausts the
range. The source sleeps at the end of every continuing iteration, so the
sleep also follows the last one. -/
def fallback_loop (responses : Nat → StatusData) (invoice_id : String)
    (interval : Int) : Nat → Nat → Store → PollRun
  | 0, _, db => { db := db, checks := 0, sleeps := [] }
  | fuel + 1, i, db =>
    let step := fallback_iter db invoice_id (responses i)
    if step.2 then { db := step.1, checks := 1, sleeps := [] }
    else
      let rest := fallback_loop responses invoice_id interval fuel (i + 1) step.1
      { db := rest.db, checks := rest.checks + 1, sleeps := interval :: rest.sleeps }

/-- `_fallback_poll_status`: initial sleep of `fallback_delay_sec`, then up to
`max(fallback_retries, 0)` iterations of the loop with `fallback_interval_sec`
sleeps, consuming one `checkStatus` answer per iteration. -/
def fallback_poll_status (cfg : FallbackCfg) (responses : Nat → StatusData)
    (invoice_id : String) (db : Store) : PollRun :=
  let run := fallback_loop responses invoice_id cfg.fallback_interval_sec
    cfg.fallback_retries.toNat 0 db
  { db := run.db, checks := run.checks
    sleeps := cfg.fallback_delay_sec :: run.sleeps }

/-- The normalized content of a YooKassa `payment.succeeded` callback, as
probed by `fiscalize_on_yookassa_succeeded`: `object.status`, the stringified
`object.id`, the parsed amount, the description and the optional customer
contacts. -/
structure YkEvent where
  status : Option String
  id : Option String
  amount : ℚ
  description : String
  email : Option String
  phone : Option String
deriving DecidableEq, Repr

/-- Outcome of the single `send_income_receipt` network call the orchestrator
makes: the `receipt_id` / `invoice_id` fields of a success answer, or the
error text of a raised exception. -/
inductive SendOutcome where
  | success (receipt_id : Option String) (invoice_id : Option String)
  | failure (err : String)
deriving DecidableEq, Repr

/-- The structured result dict of `fiscalize_on_yookassa_succeeded`. -/
inductive FiscalizeResult where
  | skipped
  | missingPaymentId
  | duplicate (status : ReceiptStatus) (receipt_id : Option String)
      (invoice_id : String) (ofd_url : Option String)
  | ok (receipt_id : Option String) (invoice_id : String)
  | sendFailed (detail : String)
deriving DecidableEq, Repr

/-- Step 2 of the orchestrator, shared by the found-retryable and the
freshly-created paths: one submission call, then `mark_sent` on success
(rewriting `invoice_id` to `send_result.get("invoice_id") or invoice_id`) or
`mark_failed` on a raised error. -/
def submitStep (db1 : Store) (pr : PaymentReceipt) (invoice_id : String)
    (outcome : SendOutcome) : FiscalizeResult × Store × Bool :=
  match outcome with
  | .success rid inv2 =>
    let ferma_inv := pyOrStr inv2 invoice_id
    (FiscalizeResult.ok rid ferma_inv,
     setReceipt db1 (mark_sent pr rid (some ferma_inv)), true)
  | .failure e =>
    (FiscalizeResult.sendFailed e, setReceipt db1 (mark_failed pr e), true)

/-- `fiscalize_on_yookassa_succeeded` as a function of the receipt table, the
event and the outcome the fiscal service would give to a submission. The
third component records whether an outbound submission call was made. -/
def fiscalize_on_yookassa_succeeded (db : Store) (ev : YkEvent)
    (outcome : SendOutcome) : FiscalizeResult × Store × Bool :=
  if ev.status != some "succeeded" then (FiscalizeResult.skipped, db, false)
  else if !truthy ev.id then (FiscalizeResult.missingPaymentId, db, false)
  else
    let pid := ev.id.getD ""
    match get_by_payment_id db pid with
    | some pr =>
      if pr.status == ReceiptStatus.SENT || pr.status == ReceiptStatus.PROCESSED
          || pr.status == ReceiptStatus.CONFIRMED then
        (FiscalizeResult.duplicate pr.status pr.receipt_id pr.invoice_id
          pr.ofd_receipt_url, db, false)
      else
        submitStep db pr pr.invoice_id outcome
    | none =>
      let newPr := create_new pid pid ev.amount ev.description ev.email ev.phone
      submitStep (db ++ [newPr]) newPr pid outcome

/-! ## Fiscal service client (`ferma_ofd_service.py`) -/

/-- The mutable token cache of `FermaClient` (`_token`, `_token_expiry`);
expiry is an absolute time in seconds. -/
structure ClientState where
  token : Option String
  expiry : Option ℚ
deriving DecidableEq, Repr

/-- Outcome of one `_auth` call: the token and expiry of a success answer, or
the `FermaError(status, payload)` it raises on rejection. -/
inductive AuthResult where
  | ok (token : String) (expiry : ℚ)
  | fail (status : Nat) (payload : String)
deriving DecidableEq, Repr

/-- Remaining token validity in seconds,
`(self._token_expiry - datetime.now(utc)).total_seconds()`. -/
def remaining_validity (st : ClientState) (now : ℚ) : ℚ :=
  match st.expiry with
  | some e => e - now
  | none => 0

/-- The guard of `_ensure_token`: a truthy cached token, a cached expiry, and
remaining validity strictly above the 60 second margin. -/
def token_fresh (st : ClientState) (now : ℚ) : Bool :=
  truthy st.token && st.expiry.isSome && decide (remaining_validity st now > 60)

/-- `_ensure_token`: keep the cache untouched when `token_fresh`, otherwise
run `_auth` (whose failure raises). The boolean records whether `_auth` ran. -/
def ensure_token (st : ClientState) (now : ℚ) (auth : AuthResult) :
    Except (Nat × String) (ClientState × Bool) :=
  if token_fresh st now then Except.ok (st, false)
  else
    match auth with
    | .ok tok exp => Except.ok ({ token := some tok, expiry := some exp }, true)
    | .fail s p => Except.error (s, p)

/-- One HTTP answer to the POST inside `_once`: status plus the body fields
`_post_json` probes (`Status`, `Error`, `Error.Code`), and an abstract
rendering of the whole body as carried by `FermaError`. -/
structure Resp where
  status : Nat
  statusFailed : Bool
  errorIsDict : Bool
  errorCode : Option PyVal
  payload : String
deriving DecidableEq, Repr

/-- One network interaction: an HTTP response, or a connection/timeout
exception raised out of `sess.post`. -/
inductive NetAnswer where
  | resp (r : Resp)
  | raised (e : String)
deriving DecidableEq, Repr

/-- The logical-unauthenticated test of `_post_json`:
`data.get("Status") == "Failed" and isinstance(data.get("Error"), dict) and
str(data["Error"].get("Code")) == "1001"`. -/
def body1001 (r : Resp) : Bool :=
  r.statusFailed && r.errorIsDict && (pyValText r.errorCode == "1001")

/-- 2xx test of `_post_json`. -/
def is2xx (n : Nat) : Bool :=
  decide (200 ≤ n ∧ n < 300)

/-- The retry statuses of `_post_json`: `status in (429, 500, 502, 503, 504)`. -/
def transientStatus (n : Nat) : Bool :=
  n == 429 || n == 500 || n == 502 || n == 503 || n == 504

/-- How `_post_json` terminates: a returned body, a raised
`FermaError(status, payload)`, or an uncaught network exception propagating
out of the retry loop. -/
inductive PostResult where
  | body (payload : String)
  | fermaError (status : Nat) (payload : String)
  | netRaised (e : String)
deriving DecidableEq, Repr

/-- Observable outcome of a `_post_json` call: result, number of `_auth`
calls, number of POSTs of the request itself, backoff sleeps in order, and
the final token cache. -/
structure PostOutcome where
  result : PostResult
  authCalls : Nat
  postCalls : Nat
  sleeps : List ℚ
  state : ClientState
deriving DecidableEq, Repr

/-- Body text of the `Auth refresh failed` answer `_once` fabricates when the
forced re-login raises: the caught exception is the `FermaError` text of the
failed `_auth`. -/
def authRefreshFailText (s : Nat) (p : String) : String :=
  "Auth refresh failed: Ferma API failed: HTTP " ++ toString s ++ " " ++ p

/-- The `for i in range(1, attempts + 1)` loop of `_post_json`. `fuel` counts
the attempts still allowed after the current one (so the last attempt runs
with `fuel = 0`), `pIdx` indexes the next answer of `posts`, `aIdx` the next
answer of `auths`, and `backoff` is the current sleep. On a 401 (direct, or a
2xx body encoding error code 1001) with `use_token`, the token is dropped,
`_auth` runs once, and the request is posted exactly once more: a 2xx answer
is returned as-is, anything else raises. Transient statuses sleep and retry
until the fuel runs out, every other status raises at once, and a network
exception propagates uncaught. -/
def post_attempts (posts : Nat → NetAnswer) (auths : Nat → AuthResult)
    (use_token : Bool) (st : ClientState) :
    Nat → Nat → Nat → ℚ → PostOutcome
  | 0, _, _, _ =>
    { result := PostResult.fermaError 599 "Unexpected retry loop exit"
      authCalls := 0, postCalls := 0, sleeps := [], state := st }
  | fuel + 1, pIdx, aIdx, backoff =>
    match posts pIdx with
    | .raised e =>
      { result := PostResult.netRaised e, authCalls := 0, postCalls := 1
        sleeps := [], state := st }
    | .resp r =>
      if is2xx r.status && !body1001 r then
        { result := PostResult.body r.payload, authCalls := 0, postCalls := 1
          sleeps := [], state := st }
      else
        let status := if is2xx r.status then 401 else r.status
        if status == 401 && use_token then
          match auths aIdx with
          | .fail s p =>
            { result := PostResult.fermaError 401 (authRefreshFailText s p)
              authCalls := 1, postCalls := 1, sleeps := []
              state := { token := none, expiry := none } }
          | .ok tok exp =>
            let st2 : ClientState := { token := some tok, expiry := some exp }
            match posts (pIdx + 1) with
            | .raised e =>
              { result := PostResult.netRaised e, authCalls := 1, postCalls := 2
                sleeps := [], state := st2 }
            | .resp r2 =>
              if is2xx r2.status then
                { result := PostResult.body r2.payload, authCalls := 1
                  postCalls := 2, sleeps := [], state := st2 }
              else
                { result := PostResult.fermaError r2.status r2.payload
                  authCalls := 1, postCalls := 2, sleeps := [], state := st2 }
        else if transientStatus status then
          if fuel == 0 then
            { result := PostResult.fermaError status r.payload, authCalls := 0
              postCalls := 1, sleeps := [], state := st }
          else
            let rest := post_attempts posts auths use_token st fuel (pIdx + 1)
              aIdx (backoff * 2)
            { result := rest.result, authCalls := rest.authCalls
              postCalls := rest.postCalls + 1, sleeps := backoff :: rest.sleeps
              state := rest.state }
        else
          { result := PostResult.fermaError status r.payload, authCalls := 0
            postCalls := 1, sleeps := [], state := st }

/-- `_post_json`: lazy token refresh first when `use_token` (a raising
`_auth` there propagates), then the 5-attempt loop with initial backoff
0.6 seconds. -/
def post_json (st : ClientState) (now : ℚ) (use_token : Bool)
    (auths : Nat → AuthResult) (posts : Nat → NetAnswer) : PostOutcome :=
  if use_token then
    match ensure_token st now (auths 0) with
    | .error sp =>
      { result := PostResult.fermaError sp.1 sp.2, authCalls := 1
        postCalls := 0, sleeps := [], state := st }
    | .ok stDid =>
      let aIdx := if stDid.2 then 1 else 0
      let run := post_attempts posts auths true stDid.1 5 0 aIdx (3 / 5)
      { run with authCalls := run.authCalls + (if stDid.2 then 1 else 0) }
  else
    post_attempts posts auths false st 5 0 0 (3 / 5)

/-! ## Store lemmas -/

/-- Projection of the store to the state-machine content of each row:
correlation key, status, confirmation url. -/
def transitionView (db : Store) : List (String × ReceiptStatus × Option String) :=
  db.map (fun r => (r.payment_id, r.status, r.ofd_receipt_url))

lemma setReceipt_cons (r : PaymentReceipt) (db : Store) (pr : PaymentReceipt) :
    setReceipt (r :: db) pr =
      (if r.payment_id == pr.payment_id then pr else r) :: setReceipt db pr := rfl

lemma transitionView_setReceipt_congr (db : Store) (a b : PaymentReceipt)
    (hpid : a.payment_id = b.payment_id) (hst : a.status = b.status)
    (hofd : a.ofd_receipt_url = b.ofd_receipt_url) :
    transitionView (setReceipt db a) = transitionView (setReceipt db b) := by
  induction db with
  | nil => rfl
  | cons r rest ih =>
    rw [setReceipt_cons, setReceipt_cons]
    simp only [transitionView, List.map_cons] at ih ⊢
    rw [hpid]
    by_cases h : (r.payment_id == b.payment_id) = true
    · simp only [h, if_true]
      rw [hpid, hst, hofd]
      exact congrArg _ ih
    · simp only [h, if_false, Bool.false_eq_true]
      exact congrArg _ ih

lemma length_setReceipt (db : Store) (pr : PaymentReceipt) :
    (setReceipt db pr).length = db.length := by
  simp [setReceipt]

lemma get_by_payment_id_append_fresh (db : Store) (x : PaymentReceipt)
    (pid : String) (h : get_by_payment_id db pid = none) :
    get_by_payment_id (db ++ [x]) pid =
      if x.payment_id == pid then some x else none := by
  unfold get_by_payment_id at h ⊢
  rw [List.find?_append, h]
  by_cases hx : (x.payment_id == pid) = true
  · simp [List.find?, hx]
  · simp [List.find?, hx]

lemma setReceipt_append_fresh (db : Store) (x pr : PaymentReceipt)
    (h : get_by_payment_id db pr.payment_id = none)
    (hx : (x.payment_id == pr.payment_id) = true) :
    setReceipt (db ++ [x]) pr = db ++ [pr] := by
  unfold get_by_payment_id at h
  rw [List.find?_eq_none] at h
  unfold setReceipt
  rw [List.map_append]
  congr 1
  · calc db.map (fun r => if r.payment_id == pr.payment_id then pr else r)
        = db.map (fun r => r) := by
          apply List.map_congr_left
          intro r hr
          simp only [h r hr, if_false, Bool.false_eq_true]
      _ = db := List.map_id' db
  · simp only [List.map_cons, List.map_nil]
    rw [if_pos hx]

/-! ## Concrete fixtures for witnesses and counterexamples -/

/-- A receipt already CONFIRMED with a stored OFD url. -/
def prConfirmed : PaymentReceipt :=
  { payment_id := "p1", invoice_id := "I1", receipt_id := some "R1"
    amount := 100, description := "d1", customer_email := none
    customer_phone := none, status := ReceiptStatus.CONFIRMED
    ofd_receipt_url := some "https://ofd/1", last_error := none }

/-- A SENT receipt, first of two used for the resolution-priority scenario. -/
def prSentA : PaymentReceipt :=
  { payment_id := "p1", invoice_id := "I1", receipt_id := some "R1"
    amount := 100, description := "d1", customer_email := none
    customer_phone := none, status := ReceiptStatus.SENT
    ofd_receipt_url := none, last_error := none }

/-- A SENT receipt, second of two used for the resolution-priority scenario. -/
def prSentB : PaymentReceipt :=
  { payment_id := "p2", invoice_id := "I2", receipt_id := some "R2"
    amount := 50, description := "d2", customer_email := none
    customer_phone := none, status := ReceiptStatus.SENT
    ofd_receipt_url := none, last_error := none }

/-- A normalized `payment.succeeded` event for payment `pay_1`. -/
def evPay1 : YkEvent :=
  { status := some "succeeded", id := some "pay_1", amount := 100
    description := "Order pay_1", email := none, phone := none }

/-- A `Data`-rooted callback body with the given fields. -/
def mkBody (sc : Option PyVal) (inv rid ofd : Option String) : Payload :=
  { data := some { statusCode := sc, invoiceId := inv, receiptId := rid
                   device := some { ofdReceiptUrl := ofd } }
    statusCode := none, invoiceId := none, receiptId := none, device := none }

/-! ## Handler unfolding lemmas -/

lemma ferma_callback_parsed (cidrs : List Cidr) (peer : Option Nat)
    (p : Payload) (db : Store) (hip : ip_allowed cidrs peer = true) :
    ferma_callback cidrs peer (some p) db =
      if !truthy (wh_invoice_id p) && !truthy (wh_receipt_id p) then
        (respMissingIds, db)
      else
        match wh_resolve db (wh_invoice_id p) (wh_receipt_id p) with
        | none => (respUnknownInvoice, db)
        | some pr =>
          wh_apply db pr (as_int_status (wh_status_raw p)) (wh_ofd_url p)
            (payloadText p) := by
  unfold ferma_callback
  rw [hip]
  simp only [Bool.not_true, Bool.false_eq_true, if_false]

lemma wh_resolve_invoice_hit (db : Store) (inv rid : Option String)
    (pr : PaymentReceipt) (hinv : truthy inv = true)
    (h : get_by_invoice_id db (inv.getD "") = some pr) :
    wh_resolve db inv rid = some pr := by
  unfold wh_resolve
  rw [if_pos hinv, h]

lemma wh_resolve_receipt_hit (db : Store) (inv rid : Option String)
    (pr : PaymentReceipt)
    (hmiss : truthy inv = false ∨ get_by_invoice_id db (inv.getD "") = none)
    (hrid : truthy rid = true)
    (h : get_by_receipt_id db (rid.getD "") = some pr) :
    wh_resolve db inv rid = some pr := by
  unfold wh_resolve
  rcases hmiss with hm | hm
  · rw [hm]
    simp only [Bool.false_eq_true, if_false]
    rw [if_pos hrid, h]
  · by_cases hinv : truthy inv = true
    · rw [if_pos hinv, hm]
      rw [if_pos hrid, h]
    · rw [if_neg hinv]
      rw [if_pos hrid, h]

lemma wh_apply_processed (db : Store) (pr : PaymentReceipt)
    (ofd : Option String) (t : String) :
    wh_apply db pr (some 1) ofd t =
      (respHandled "processed" (some "mark_processed"),
       setReceipt db (mark_processed pr)) := rfl

/-! ## Claims -/

/-- C1, counterexample: the claim says that once a Receipt is CONFIRMED no
webhook ingestion write changes its `status`, every writer re-checking the
terminal state first. The webhook handler performs no such re-check: a
PROCESSED callback (StatusCode `1`) arriving for the CONFIRMED receipt
`prConfirmed` rewrites its status to PROCESSED. -/
theorem C1_webhook_overwrites_terminal :
    prConfirmed.status = ReceiptStatus.CONFIRMED ∧
    (ferma_callback [] none
        (some (mkBody (some (PyVal.int 1)) (some "I1") none none))
        [prConfirmed]).2 = [mark_processed prConfirmed] ∧
    (mark_processed prConfirmed).status ≠ ReceiptStatus.CONFIRMED := by
  decide

/-- C1, amended: only the fallback-poll writer re-checks the current status
immediately before mutating and refuses to overwrite a terminal state — a
receipt found CONFIRMED or KKT_ERROR makes the poll iteration stop with the
table untouched, and the whole poll task leaves the table unchanged; the
webhook ingestion path applies its transition without any terminal-state
re-check. -/
theorem C1_poll_refuses_terminal (db : Store) (inv : String)
    (data : StatusData) (pr : PaymentReceipt) (cfg : FallbackCfg)
    (responses : Nat → StatusData)
    (h : get_by_invoice_id db inv = some pr)
    (hterm : isTerminal pr.status = true) :
    fallback_iter db inv data = (db, true) ∧
    (fallback_poll_status cfg responses inv db).db = db := by
  have hiter : ∀ d : StatusData, fallback_iter db inv d = (db, true) := by
    intro d
    simp [fallback_iter, h, hterm]
  refine ⟨hiter data, ?_⟩
  unfold fallback_poll_status
  cases hr : cfg.fallback_retries.toNat with
  | zero => simp [fallback_loop]
  | succ n => simp [fallback_loop, hiter]

/-- C1 witness: the amended theorem applied to a CONFIRMED receipt and a
PROCESSED poll answer. -/
theorem C1_poll_refuses_terminal_witness :
    fallback_iter [prConfirmed] "I1"
        { statusCode := some (PyVal.int 1), ofdUrl := none } =
      ([prConfirmed], true) ∧
    (fallback_poll_status (cfg_from_settings none none none)
        (fun _ => { statusCode := some (PyVal.int 1), ofdUrl := none })
        "I1" [prConfirmed]).db = [prConfirmed] :=
  C1_poll_refuses_terminal [prConfirmed] "I1"
    { statusCode := some (PyVal.int 1), ofdUrl := none } prConfirmed
    (cfg_from_settings none none none)
    (fun _ => { statusCode := some (PyVal.int 1), ofdUrl := none })
    (by decide) (by decide)

/-- C2, counterexample: the claim says the webhook handler resolves by
`receipt_id` first. With two records, `prSentA` carrying ReceiptId `R1` and
`prSentB` carrying InvoiceId `I2`, a callback naming both resolves to
`prSentB` — the `invoice_id` match — and mutates it, leaving the
`receipt_id` match untouched. -/
theorem C2_counterexample :
    get_by_receipt_id [prSentA, prSentB] "R1" = some prSentA ∧
    get_by_invoice_id [prSentA, prSentB] "I2" = some prSentB ∧
    prSentA ≠ prSentB ∧
    (ferma_callback [] none
        (some (mkBody (some (PyVal.int 1)) (some "I2") (some "R1") none))
        [prSentA, prSentB]).2 = [prSentA, mark_processed prSentB] := by
  decide

/-- C2, amended: the webhook handler resolves the target Receipt by
`invoice_id` first, falling back to `receipt_id` only when the invoice id is
absent or matches no record (shown here on a PROCESSED callback: the
invoice-matched record is the one mutated, whatever the receipt id names;
the receipt-id match is used only when the invoice lookup yields nothing). -/
theorem C2_resolution_invoice_first (cidrs : List Cidr) (peer : Option Nat)
    (db : Store) (p : Payload)
    (hip : ip_allowed cidrs peer = true)
    (hsc : as_int_status (wh_status_raw p) = some 1) :
    (∀ pr, truthy (wh_invoice_id p) = true →
      get_by_invoice_id db ((wh_invoice_id p).getD "") = some pr →
      ferma_callback cidrs peer (some p) db =
        (respHandled "processed" (some "mark_processed"),
         setReceipt db (mark_processed pr))) ∧
    (∀ pr2, (truthy (wh_invoice_id p) = false ∨
        get_by_invoice_id db ((wh_invoice_id p).getD "") = none) →
      truthy (wh_receipt_id p) = true →
      get_by_receipt_id db ((wh_receipt_id p).getD "") = some pr2 →
      ferma_callback cidrs peer (some p) db =
        (respHandled "processed" (some "mark_processed"),
         setReceipt db (mark_processed pr2))) := by
  constructor
  · intro pr hinv hfound
    rw [ferma_callback_parsed cidrs peer p db hip]
    rw [wh_resolve_invoice_hit db _ _ pr hinv hfound]
    rw [hinv]
    simp only [Bool.not_true, Bool.false_and, Bool.false_eq_true, if_false]
    rw [hsc, wh_apply_processed]
  · intro pr2 hmiss hrid hfound
    rw [ferma_callback_parsed cidrs peer p db hip]
    rw [wh_resolve_receipt_hit db _ _ pr2 hmiss hrid hfound]
    rw [hrid]
    simp only [Bool.not_true, Bool.and_false, Bool.false_eq_true, if_false]
    rw [hsc, wh_apply_processed]

/-- C2 witness: the amended theorem applied to the two-record scenario, both
branches discharged. -/
theorem C2_resolution_invoice_first_witness :
    (ferma_callback [] none
        (some (mkBody (some (PyVal.int 1)) (some "I2") (some "R1") none))
        [prSentA, prSentB] =
      (respHandled "processed" (some "mark_processed"),
       setReceipt [prSentA, prSentB] (mark_processed prSentB))) ∧
    (ferma_callback [] none
        (some (mkBody (some (PyVal.int 1)) none (some "R1") none))
        [prSentA, prSentB] =
      (respHandled "processed" (some "mark_processed"),
       setReceipt [prSentA, prSentB] (mark_processed prSentA))) := by
  constructor
  · exact (C2_resolution_invoice_first [] none [prSentA, prSentB]
      (mkBody (some (PyVal.int 1)) (some "I2") (some "R1") none)
      (by decide) (by decide)).1 prSentB (by decide) (by decide)
  · exact (C2_resolution_invoice_first [] none [prSentA, prSentB]
      (mkBody (some (PyVal.int 1)) none (some "R1") none)
      (by decide) (by decide)).2 prSentA (Or.inl (by decide)) (by decide)
      (by decide)

lemma wh_resolve_none (db : Store) (inv rid : Option String)
    (h1 : truthy inv = true → get_by_invoice_id db (inv.getD "") = none)
    (h2 : truthy rid = true → get_by_receipt_id db (rid.getD "") = none) :
    wh_resolve db inv rid = none := by
  unfold wh_resolve
  by_cases hI : truthy inv = true
  · simp only [hI, if_true, h1 hI]
    by_cases hR : truthy rid = true
    · simp only [hR, if_true, h2 hR]
    · rw [Bool.not_eq_true] at hR
      simp only [hR, Bool.false_eq_true, if_false]
  · rw [Bool.not_eq_true] at hI
    simp only [hI, Bool.false_eq_true, if_false]
    by_cases hR : truthy rid = true
    · simp only [hR, if_true, h2 hR]
    · rw [Bool.not_eq_true] at hR
      simp only [hR, Bool.false_eq_true, if_false]

/-- C10: a successfully parsed body carrying neither an `InvoiceId` nor a
`ReceiptId` (neither under `Data` nor flat, both extracted values falsy) is
answered 400 with error `missing_invoice_and_receipt`, the table is
untouched (the gate runs before any store lookup), and this response is
distinct from the 200 success-but-ignored answer for unknown correlation
ids. -/
theorem C10_missing_ids_rejected (cidrs : List Cidr) (peer : Option Nat)
    (db : Store) (p : Payload)
    (hip : ip_allowed cidrs peer = true)
    (hinv : truthy (wh_invoice_id p) = false)
    (hrid : truthy (wh_receipt_id p) = false) :
    ferma_callback cidrs peer (some p) db = (respMissingIds, db) ∧
    respMissingIds.httpStatus = 400 ∧
    respMissingIds.error = some "missing_invoice_and_receipt" ∧
    respMissingIds ≠ respUnknownInvoice ∧
    respUnknownInvoice.httpStatus = 200 := by
  refine ⟨?_, rfl, rfl, by decide, rfl⟩
  rw [ferma_callback_parsed cidrs peer p db hip, hinv, hrid]
  rfl

/-- C10 witness: the theorem applied to a body with a status code but no
correlation ids at either level. -/
theorem C10_missing_ids_rejected_witness :
    ferma_callback [] none (some (mkBody (some (PyVal.int 2)) none none none))
        [prSentA] = (respMissingIds, [prSentA]) ∧
    respMissingIds.httpStatus = 400 ∧
    respMissingIds.error = some "missing_invoice_and_receipt" ∧
    respMissingIds ≠ respUnknownInvoice ∧
    respUnknownInvoice.httpStatus = 200 :=
  C10_missing_ids_rejected [] none [prSentA]
    (mkBody (some (PyVal.int 2)) none none none)
    (by decide) (by decide) (by decide)

/-- C8: the inbound gates of the webhook endpoint. An empty allow-list
accepts any peer; with a non-empty allow-list a peer inside no configured
network gets 403 and no table change, whatever the body; an unparsable body
gets 400 without raising (the handler is a total function returning a
response); a parsed body whose correlation ids match no local Receipt gets
the 200 success-but-ignored answer with the table untouched. -/
theorem C8_endpoint_gates (cidrs : List Cidr) (ip : Nat) (peer : Option Nat)
    (db : Store) (p : Payload) :
    (ip_allowed [] peer = true) ∧
    (cidrs ≠ [] → (∀ c ∈ cidrs, ip_in_net ip c = false) →
      ∀ body, ferma_callback cidrs (some ip) body db = (respForbidden, db)) ∧
    respForbidden.httpStatus = 403 ∧
    (ip_allowed cidrs peer = true →
      ferma_callback cidrs peer none db = (respInvalidJson, db)) ∧
    respInvalidJson.httpStatus = 400 ∧
    (ip_allowed cidrs peer = true →
      (truthy (wh_invoice_id p) = true →
        get_by_invoice_id db ((wh_invoice_id p).getD "") = none) →
      (truthy (wh_receipt_id p) = true →
        get_by_receipt_id db ((wh_receipt_id p).getD "") = none) →
      (truthy (wh_invoice_id p) = true ∨ truthy (wh_receipt_id p) = true) →
      ferma_callback cidrs peer (some p) db = (respUnknownInvoice, db)) ∧
    respUnknownInvoice.httpStatus = 200 ∧ respUnknownInvoice.ok = true := by
  refine ⟨by simp [ip_allowed], ?_, rfl, ?_, rfl, ?_, rfl, rfl⟩
  · intro hne hout body
    have hip : ip_allowed cidrs (some ip) = false := by
      cases cidrs with
      | nil => exact absurd rfl hne
      | cons c cs =>
        simp only [ip_allowed, List.isEmpty_cons, Bool.false_eq_true, if_false]
        rw [List.any_eq_false]
        intro x hx
        simp [hout x hx]
    unfold ferma_callback
    rw [hip]
    rfl
  · intro hip
    unfold ferma_callback
    rw [hip]
    rfl
  · intro hip h1 h2 hor
    rw [ferma_callback_parsed cidrs peer p db hip]
    rw [wh_resolve_none db _ _ h1 h2]
    rcases hor with hI | hR
    · rw [hI]
      rfl
    · rw [hR]
      simp only [Bool.not_true, Bool.and_false, Bool.false_eq_true, if_false]

/-- C8 witness: the gates applied to a configured allow-list `10.0.0.0/8`,
an outside peer `192.168.0.1`, and an unknown-invoice body. -/
theorem C8_endpoint_gates_witness :
    ferma_callback [Cidr.mk 167772160 8] (some 3232235521)
        (some (mkBody (some (PyVal.int 2)) (some "Ix") none none)) [prSentA] =
      (respForbidden, [prSentA]) ∧
    ferma_callback [] none none [prSentA] = (respInvalidJson, [prSentA]) ∧
    ferma_callback [] none (some (mkBody (some (PyVal.int 2)) (some "Ix") none none))
        [prSentA] = (respUnknownInvoice, [prSentA]) := by
  have h := C8_endpoint_gates [Cidr.mk 167772160 8] 3232235521 none [prSentA]
    (mkBody (some (PyVal.int 2)) (some "Ix") none none)
  have h2 := C8_endpoint_gates ([] : List Cidr) 0 none [prSentA]
    (mkBody (some (PyVal.int 2)) (some "Ix") none none)
  refine ⟨?_, ?_, ?_⟩
  · exact h.2.1 (by decide) (by decide) _
  · exact h2.2.2.2.1 (by decide)
  · exact h2.2.2.2.2.2.1 (by decide) (fun _ => by decide) (fun hx => by decide)
      (Or.inl (by decide))

lemma wh_apply_transitionView (db : Store) (pr : PaymentReceipt)
    (sc : Option Int) (ofd : Option String) (t1 t2 : String) :
    transitionView (wh_apply db pr sc ofd t1).2 =
      transitionView (wh_apply db pr sc ofd t2).2 := by
  cases sc with
  | none => rfl
  | some n =>
    unfold wh_apply
    by_cases h2 : (n == 2) = true
    · simp [h2]
    · by_cases h1 : (n == 1) = true
      · simp [h2, h1]
      · by_cases h3 : (n == 3) = true
        · simp only [h2, h1, h3, Bool.false_eq_true, if_false, if_true]
          exact transitionView_setReceipt_congr db _ _ rfl rfl rfl
        · simp [h2, h1, h3]

/-- C7: status-code normalization maps `2`, `"2"`, `" 2 "` and `"CONFIRMED"`
to the same code, and likewise the `0`/`"NEW"`, `1`/`"PROCESSED"` and
`3`/`"KKT_ERROR"` families; two callback bodies agreeing on their extracted
correlation fields whose status codes normalize identically produce the same
state-machine transitions (same statuses and confirmation urls); a body
whose code fails to normalize leaves every Receipt unchanged, answered
without raising (the handler is total and returns the 200 ignored body). -/
theorem C7_status_normalization (cidrs : List Cidr) (peer : Option Nat)
    (db : Store) (p1 p2 : Payload) :
    (as_int_status (some (PyVal.int 2)) = some 2 ∧
     as_int_status (some (PyVal.str "2")) = some 2 ∧
     as_int_status (some (PyVal.str " 2 ")) = some 2 ∧
     as_int_status (some (PyVal.str "CONFIRMED")) = some 2) ∧
    (as_int_status (some (PyVal.int 0)) = some 0 ∧
     as_int_status (some (PyVal.str "0")) = some 0 ∧
     as_int_status (some (PyVal.str "NEW")) = some 0) ∧
    (as_int_status (some (PyVal.int 1)) = some 1 ∧
     as_int_status (some (PyVal.str "1")) = some 1 ∧
     as_int_status (some (PyVal.str "PROCESSED")) = some 1) ∧
    (as_int_status (some (PyVal.int 3)) = some 3 ∧
     as_int_status (some (PyVal.str "3")) = some 3 ∧
     as_int_status (some (PyVal.str "KKT_ERROR")) = some 3) ∧
    (wh_invoice_id p1 = wh_invoice_id p2 →
     wh_receipt_id p1 = wh_receipt_id p2 →
     wh_ofd_url p1 = wh_ofd_url p2 →
     as_int_status (wh_status_raw p1) = as_int_status (wh_status_raw p2) →
     transitionView (ferma_callback cidrs peer (some p1) db).2 =
       transitionView (ferma_callback cidrs peer (some p2) db).2) ∧
    (as_int_status (wh_status_raw p1) = none →
     (ferma_callback cidrs peer (some p1) db).2 = db ∧
     (∀ pr, wh_resolve db (wh_invoice_id p1) (wh_receipt_id p1) = some pr →
       wh_apply db pr (as_int_status (wh_status_raw p1)) (wh_ofd_url p1)
           (payloadText p1) = (respUnknownStatus, db))) := by
  refine ⟨⟨by decide, by decide, by decide, by decide⟩,
    ⟨by decide, by decide, by decide⟩, ⟨by decide, by decide, by decide⟩,
    ⟨by decide, by decide, by decide⟩, ?_, ?_⟩
  · intro h1 h2 h3 h4
    by_cases hip : ip_allowed cidrs peer = true
    · rw [ferma_callback_parsed cidrs peer p1 db hip,
        ferma_callback_parsed cidrs peer p2 db hip, h1, h2, h3, h4]
      by_cases hmiss : (!truthy (wh_invoice_id p2) && !truthy (wh_receipt_id p2)) = true
      · rw [if_pos hmiss, if_pos hmiss]
      · rw [Bool.not_eq_true] at hmiss
        rw [hmiss]
        simp only [Bool.false_eq_true, if_false]
        cases hres : wh_resolve db (wh_invoice_id p2) (wh_receipt_id p2) with
        | none => rfl
        | some pr => exact wh_apply_transitionView db pr _ _ _ _
    · rw [Bool.not_eq_true] at hip
      unfold ferma_callback
      rw [hip]
      rfl
  · intro hnone
    constructor
    · by_cases hip : ip_allowed cidrs peer = true
      · rw [ferma_callback_parsed cidrs peer p1 db hip]
        by_cases hmiss : (!truthy (wh_invoice_id p1) && !truthy (wh_receipt_id p1)) = true
        · rw [if_pos hmiss]
        · rw [Bool.not_eq_true] at hmiss
          rw [hmiss]
          simp only [Bool.false_eq_true, if_false]
          cases hres : wh_resolve db (wh_invoice_id p1) (wh_receipt_id p1) with
          | none => rfl
          | some pr =>
            rw [hnone]
            rfl
      · rw [Bool.not_eq_true] at hip
        unfold ferma_callback
        rw [hip]
        rfl
    · intro pr _
      rw [hnone]
      rfl

/-- C7 witness: a string status `"2"` and the integer `2` drive the handler
to identical transitions on a concrete table, and an unrecognized code
leaves the table unchanged. -/
theorem C7_status_normalization_witness :
    transitionView (ferma_callback [] none
        (some (mkBody (some (PyVal.str "2")) (some "I1") none (some "u")))
        [prSentA]).2 =
      transitionView (ferma_callback [] none
        (some (mkBody (some (PyVal.int 2)) (some "I1") none (some "u")))
        [prSentA]).2 ∧
    (ferma_callback [] none
        (some (mkBody (some (PyVal.str "odd")) (some "I1") none none))
        [prSentA]).2 = [prSentA] := by
  refine ⟨?_, ?_⟩
  · exact (C7_status_normalization [] none [prSentA]
      (mkBody (some (PyVal.str "2")) (some "I1") none (some "u"))
      (mkBody (some (PyVal.int 2)) (some "I1") none (some "u"))).2.2.2.2.1
      (by decide) (by decide) (by decide) (by decide)
  · exact ((C7_status_normalization [] none [prSentA]
      (mkBody (some (PyVal.str "odd")) (some "I1") none none)
      (mkBody (some (PyVal.str "odd")) (some "I1") none none)).2.2.2.2.2
      (by decide)).1

lemma fallback_loop_checks_le (responses : Nat → StatusData) (inv : String)
    (interval : Int) :
    ∀ fuel i db, (fallback_loop responses inv interval fuel i db).checks ≤ fuel := by
  intro fuel
  induction fuel with
  | zero =>
    intro i db
    exact Nat.le_refl 0
  | succ n ih =>
    intro i db
    unfold fallback_loop
    by_cases hs : (fallback_iter db inv (responses i)).2 = true
    · simp only [hs, if_true]
      exact Nat.succ_le_succ (Nat.zero_le n)
    · rw [Bool.not_eq_true] at hs
      simp only [hs, Bool.false_eq_true, if_false]
      exact Nat.succ_le_succ (ih (i + 1) _)

lemma fallback_loop_sleeps_const (responses : Nat → StatusData) (inv : String)
    (interval : Int) :
    ∀ fuel i db, ∀ x ∈ (fallback_loop responses inv interval fuel i db).sleeps,
      x = interval := by
  intro fuel
  induction fuel with
  | zero =>
    intro i db x hx
    simp [fallback_loop] at hx
  | succ n ih =>
    intro i db x hx
    unfold fallback_loop at hx
    by_cases hs : (fallback_iter db inv (responses i)).2 = true
    · simp [hs] at hx
    · rw [Bool.not_eq_true] at hs
      simp only [hs, Bool.false_eq_true, if_false, List.mem_cons] at hx
      rcases hx with hx | hx
      · exact hx
      · exact ih (i + 1) _ x hx

/-- C6: the reconciliation task defaults are an initial delay of 180s, 5
attempts and a 180s interval; a run makes at most `max(retries, 0)` status
checks; its sleep trace starts with the initial delay and every further
sleep equals the fixed interval; and each iteration follows the transition
table: a missing or terminal row stops without writing, remote CONFIRMED
writes and stops, KKT_ERROR writes and stops, PROCESSED writes and
continues, and NEW or any unrecognized code writes nothing and continues
(so exhausting every attempt ends the loop with no further effect). -/
theorem C6_fallback_poll (cfg : FallbackCfg) (responses : Nat → StatusData)
    (inv : String) (db : Store) (data : StatusData) (pr : PaymentReceipt) :
    cfg_from_settings none none none =
      { fallback_delay_sec := 180, fallback_retries := 5
        fallback_interval_sec := 180 } ∧
    (fallback_poll_status cfg responses inv db).checks ≤
      cfg.fallback_retries.toNat ∧
    (∃ rest, (fallback_poll_status cfg responses inv db).sleeps =
        cfg.fallback_delay_sec :: rest ∧
        ∀ x ∈ rest, x = cfg.fallback_interval_sec) ∧
    (get_by_invoice_id db inv = none → fallback_iter db inv data = (db, true)) ∧
    (get_by_invoice_id db inv = some pr → isTerminal pr.status = true →
      fallback_iter db inv data = (db, true)) ∧
    (get_by_invoice_id db inv = some pr → isTerminal pr.status = false →
      pyEqInt data.statusCode 2 = true →
      fallback_iter db inv data =
        (setReceipt db (mark_confirmed pr data.ofdUrl), true)) ∧
    (get_by_invoice_id db inv = some pr → isTerminal pr.status = false →
      pyEqInt data.statusCode 2 = false → pyEqInt data.statusCode 1 = true →
      fallback_iter db inv data = (setReceipt db (mark_processed pr), false)) ∧
    (get_by_invoice_id db inv = some pr → isTerminal pr.status = false →
      pyEqInt data.statusCode 2 = false → pyEqInt data.statusCode 1 = false →
      pyEqInt data.statusCode 3 = true →
      fallback_iter db inv data =
        (setReceipt db (mark_kkt_error pr (statusDataText data)), true)) ∧
    (get_by_invoice_id db inv = some pr → isTerminal pr.status = false →
      pyEqInt data.statusCode 2 = false → pyEqInt data.statusCode 1 = false →
      pyEqInt data.statusCode 3 = false →
      fallback_iter db inv data = (db, false)) := by
  refine ⟨by decide, ?_, ?_, ?_, ?_, ?_, ?_, ?_, ?_⟩
  · exact fallback_loop_checks_le responses inv cfg.fallback_interval_sec
      cfg.fallback_retries.toNat 0 db
  · exact ⟨(fallback_loop responses inv cfg.fallback_interval_sec
        cfg.fallback_retries.toNat 0 db).sleeps, rfl,
      fallback_loop_sleeps_const responses inv cfg.fallback_interval_sec
        cfg.fallback_retries.toNat 0 db⟩
  · intro h
    simp [fallback_iter, h]
  · intro h hterm
    simp [fallback_iter, h, hterm]
  · intro h hterm hc2
    simp [fallback_iter, h, hterm, hc2]
  · intro h hterm hc2 hc1
    simp [fallback_iter, h, hterm, hc2, hc1]
  · intro h hterm hc2 hc1 hc3
    simp [fallback_iter, h, hterm, hc2, hc1, hc3]
  · intro h hterm hc2 hc1 hc3
    simp [fallback_iter, h, hterm, hc2, hc1, hc3]

/-- C6 witness: the theorem at the default configuration on a run observing
NEW forever, plus the PROCESSED-continues and terminal-stop iterations. -/
theorem C6_fallback_poll_witness :
    (fallback_poll_status (cfg_from_settings none none none)
        (fun _ => { statusCode := some (PyVal.int 0), ofdUrl := none })
        "I2" [prSentB]).checks ≤
      (cfg_from_settings none none none).fallback_retries.toNat ∧
    fallback_iter [prSentB] "I2"
        { statusCode := some (PyVal.int 1), ofdUrl := none } =
      (setReceipt [prSentB] (mark_processed prSentB), false) ∧
    fallback_iter [prConfirmed] "I1"
        { statusCode := some (PyVal.int 1), ofdUrl := none } =
      ([prConfirmed], true) := by
  have h := C6_fallback_poll (cfg_from_settings none none none)
    (fun _ => { statusCode := some (PyVal.int 0), ofdUrl := none }) "I2"
    [prSentB] { statusCode := some (PyVal.int 1), ofdUrl := none } prSentB
  have h2 := C6_fallback_poll (cfg_from_settings none none none)
    (fun _ => { statusCode := some (PyVal.int 0), ofdUrl := none }) "I1"
    [prConfirmed] { statusCode := some (PyVal.int 1), ofdUrl := none }
    prConfirmed
  exact ⟨h.2.1,
    h.2.2.2.2.2.2.1 (by decide) (by decide) (by decide) (by decide),
    h2.2.2.2.2.1 (by decide) (by decide)⟩

/-- C9: `_ensure_token` is a no-op exactly when a (truthy) token is cached
together with an expiry whose remaining validity strictly exceeds the 60
second margin; in every other case — no cached token, no expiry, or
remaining validity at or below 60 seconds — it performs a full `_auth`,
installing the fresh token on success and raising the auth error on
rejection. -/
theorem C9_ensure_token_margin (st : ClientState) (now : ℚ)
    (auth : AuthResult) :
    (ensure_token st now auth = Except.ok (st, false) ↔
      (truthy st.token = true ∧ ∃ e, st.expiry = some e ∧ e - now > 60)) ∧
    (token_fresh st now = false → ∀ tok exp, auth = AuthResult.ok tok exp →
      ensure_token st now auth =
        Except.ok ({ token := some tok, expiry := some exp }, true)) ∧
    (token_fresh st now = false → ∀ s pl, auth = AuthResult.fail s pl →
      ensure_token st now auth = Except.error (s, pl)) := by
  have hiff : token_fresh st now = true ↔
      (truthy st.token = true ∧ ∃ e, st.expiry = some e ∧ e - now > 60) := by
    unfold token_fresh remaining_validity
    cases hexp : st.expiry with
    | none => simp
    | some e => simp
  refine ⟨?_, ?_, ?_⟩
  · constructor
    · intro h
      by_cases hf : token_fresh st now = true
      · exact hiff.mp hf
      · exfalso
        rw [Bool.not_eq_true] at hf
        unfold ensure_token at h
        rw [hf] at h
        simp only [Bool.false_eq_true, if_false] at h
        cases auth with
        | ok tok exp => simp at h
        | fail s pl => simp at h
    · intro hsem
      have hf : token_fresh st now = true := hiff.mpr hsem
      unfold ensure_token
      rw [if_pos hf]
  · intro hf tok exp ha
    unfold ensure_token
    rw [ha, hf]
    rfl
  · intro hf s pl ha
    unfold ensure_token
    rw [ha, hf]
    rfl

/-- C9 witness: a token valid for 1000s is kept untouched; one with 50s
left triggers a full re-authentication. -/
theorem C9_ensure_token_margin_witness :
    ensure_token { token := some "T", expiry := some 1000 } 0
        (AuthResult.ok "T2" 5000) =
      Except.ok ({ token := some "T", expiry := some 1000 }, false) ∧
    ensure_token { token := some "T", expiry := some 50 } 0
        (AuthResult.ok "T2" 5000) =
      Except.ok ({ token := some "T2", expiry := some 5000 }, true) := by
  have h1 := C9_ensure_token_margin { token := some "T", expiry := some 1000 }
    0 (AuthResult.ok "T2" 5000)
  have h2 := C9_ensure_token_margin { token := some "T", expiry := some 50 }
    0 (AuthResult.ok "T2" 5000)
  exact ⟨h1.1.mpr ⟨by decide, 1000, rfl, by norm_num⟩,
    h2.2.1 (by norm_num [token_fresh, remaining_validity, truthy]) "T2" 5000 rfl⟩

/-- C3: for a `payment.succeeded` event with payment id `pid`, the
orchestrator short-circuits without any outbound submission exactly when an
existing Receipt for `pid` is in {SENT, PROCESSED, CONFIRMED}, returning the
stored result and leaving the table unchanged; a found Receipt outside that
set (FAILED in particular) is resubmitted without creating a second row; and
when no Receipt exists, a successful first delivery submits once and stores
SENT, so a second delivery of the same event makes no further submission —
exactly one outbound call in total. -/
theorem C3_orchestrator_idempotent (db : Store) (ev : YkEvent)
    (outcome : SendOutcome) (pid : String)
    (hst : ev.status = some "succeeded") (hid : ev.id = some pid)
    (hpid : pid ≠ "") :
    (∀ pr, get_by_payment_id db pid = some pr →
      (pr.status = ReceiptStatus.SENT ∨ pr.status = ReceiptStatus.PROCESSED ∨
        pr.status = ReceiptStatus.CONFIRMED) →
      fiscalize_on_yookassa_succeeded db ev outcome =
        (FiscalizeResult.duplicate pr.status pr.receipt_id pr.invoice_id
          pr.ofd_receipt_url, db, false)) ∧
    (∀ pr, get_by_payment_id db pid = some pr →
      ¬(pr.status = ReceiptStatus.SENT ∨ pr.status = ReceiptStatus.PROCESSED ∨
        pr.status = ReceiptStatus.CONFIRMED) →
      (fiscalize_on_yookassa_succeeded db ev outcome).2.2 = true ∧
      (fiscalize_on_yookassa_succeeded db ev outcome).2.1.length = db.length) ∧
    (get_by_payment_id db pid = none → ∀ rid inv2,
      (fiscalize_on_yookassa_succeeded db ev
        (SendOutcome.success rid inv2)).2.2 = true ∧
      ∀ outcome2,
        (fiscalize_on_yookassa_succeeded
          (fiscalize_on_yookassa_succeeded db ev
            (SendOutcome.success rid inv2)).2.1 ev outcome2).2.2 = false) := by
  have hgate1 : (ev.status != some "succeeded") = false := by
    rw [hst]
    simp
  have hgate2 : truthy ev.id = true := by
    rw [hid]
    simp [truthy, hpid]
  have hgetd : ev.id.getD "" = pid := by
    rw [hid]
    rfl
  refine ⟨?_, ?_, ?_⟩
  · intro pr hfound hs
    have hb : (pr.status == ReceiptStatus.SENT ||
        pr.status == ReceiptStatus.PROCESSED ||
        pr.status == ReceiptStatus.CONFIRMED) = true := by
      rcases hs with h | h | h <;> simp [h]
    simp only [fiscalize_on_yookassa_succeeded, hgate1, hgate2, hgetd, hfound,
      hb, Bool.false_eq_true, Bool.not_true, if_false, if_true]
  · intro pr hfound hs
    have hb : (pr.status == ReceiptStatus.SENT ||
        pr.status == ReceiptStatus.PROCESSED ||
        pr.status == ReceiptStatus.CONFIRMED) = false := by
      cases hI : pr.status <;> simp_all
    simp only [fiscalize_on_yookassa_succeeded, hgate1, hgate2, hgetd, hfound,
      hb, Bool.false_eq_true, Bool.not_true, if_false, if_true]
    cases outcome with
    | success rid inv2 => exact ⟨rfl, by simp [submitStep, length_setReceipt]⟩
    | failure e => exact ⟨rfl, by simp [submitStep, length_setReceipt]⟩
  · intro hnone rid inv2
    have hsent_pid : (mark_sent
        (create_new pid pid ev.amount ev.description ev.email ev.phone) rid
        (some (pyOrStr inv2 pid))).payment_id = pid := rfl
    have hstep : (fiscalize_on_yookassa_succeeded db ev
        (SendOutcome.success rid inv2)).2.1 =
        db ++ [mark_sent
          (create_new pid pid ev.amount ev.description ev.email ev.phone) rid
          (some (pyOrStr inv2 pid))] := by
      simp only [fiscalize_on_yookassa_succeeded, hgate1, hgate2, hgetd, hnone,
        Bool.false_eq_true, Bool.not_true, if_false, submitStep]
      exact setReceipt_append_fresh db _ _ hnone
        (by simp [mark_sent, create_new])
    refine ⟨?_, ?_⟩
    · simp only [fiscalize_on_yookassa_succeeded, hgate1, hgate2, hgetd, hnone,
        Bool.false_eq_true, Bool.not_true, if_false, submitStep]
    · intro outcome2
      rw [hstep]
      have hfind2 : get_by_payment_id (db ++ [mark_sent
          (create_new pid pid ev.amount ev.description ev.email ev.phone) rid
          (some (pyOrStr inv2 pid))]) pid =
          some (mark_sent
            (create_new pid pid ev.amount ev.description ev.email ev.phone)
            rid (some (pyOrStr inv2 pid))) := by
        rw [get_by_payment_id_append_fresh db _ pid hnone, hsent_pid]
        simp
      have hb2 : ((mark_sent
          (create_new pid pid ev.amount ev.description ev.email ev.phone) rid
          (some (pyOrStr inv2 pid))).status == ReceiptStatus.SENT ||
          (mark_sent
            (create_new pid pid ev.amount ev.description ev.email ev.phone) rid
            (some (pyOrStr inv2 pid))).status == ReceiptStatus.PROCESSED ||
          (mark_sent
            (create_new pid pid ev.amount ev.description ev.email ev.phone) rid
            (some (pyOrStr inv2 pid))).status == ReceiptStatus.CONFIRMED) =
          true := by
        simp [mark_sent]
      simp only [fiscalize_on_yookassa_succeeded, hgate1, hgate2, hgetd,
        hfind2, hb2, Bool.false_eq_true, Bool.not_true, if_false, if_true]

/-- C3 witness: on an empty table, the first delivery submits (flag `true`)
and the second returns the duplicate result with no submission. -/
theorem C3_orchestrator_idempotent_witness :
    (fiscalize_on_yookassa_succeeded [] evPay1
        (SendOutcome.success (some "R9") none)).2.2 = true ∧
    (fiscalize_on_yookassa_succeeded
        (fiscalize_on_yookassa_succeeded [] evPay1
          (SendOutcome.success (some "R9") none)).2.1 evPay1
        (SendOutcome.failure "late duplicate")).2.2 = false := by
  have h := (C3_orchestrator_idempotent [] evPay1
    (SendOutcome.success (some "R9") none) "pay_1" rfl rfl
    (by decide)).2.2 rfl (some "R9") none
  exact ⟨h.1, h.2 (SendOutcome.failure "late duplicate")⟩

/-! ## Client fixtures and retry lemmas -/

/-- An empty token cache. -/
def stNone : ClientState := { token := none, expiry := none }

/-- A token cache valid far beyond the refresh margin at time 0. -/
def stFresh : ClientState := { token := some "T", expiry := some 10000 }

/-- A plain HTTP answer of the given status with no logical-error body. -/
def mkResp (s : Nat) : Resp :=
  { status := s, statusFailed := false, errorIsDict := false, errorCode := none
    payload := "B" ++ toString s }

/-- A 200 answer whose body carries the `Error.Code 1001` unauthenticated
shape. -/
def resp1001 : Resp :=
  { status := 200, statusFailed := true, errorIsDict := true
    errorCode := some (PyVal.int 1001), payload := "B1001" }

/-- An auth endpoint that always succeeds. -/
def authsOk : Nat → AuthResult := fun _ => AuthResult.ok "T2" 20000

/-- A 401 first answer followed by 200 answers. -/
def posts401 : Nat → NetAnswer
  | 0 => NetAnswer.resp (mkResp 401)
  | _ + 1 => NetAnswer.resp (mkResp 200)

/-- Four 503 answers followed by 200 answers. -/
def posts503 : Nat → NetAnswer
  | 0 | 1 | 2 | 3 => NetAnswer.resp (mkResp 503)
  | _ + 4 => NetAnswer.resp (mkResp 200)

/-- Only 501 answers. -/
def posts501 : Nat → NetAnswer := fun _ => NetAnswer.resp (mkResp 501)

lemma transient_not2xx (n : Nat) (h : transientStatus n = true) :
    is2xx n = false := by
  simp only [transientStatus, Bool.or_eq_true, beq_iff_eq] at h
  simp only [is2xx, decide_eq_false_iff_not, not_and, not_lt]
  omega

lemma transient_ne401 (n : Nat) (h : transientStatus n = true) :
    (n == 401) = false := by
  simp only [transientStatus, Bool.or_eq_true, beq_iff_eq] at h
  simp only [beq_eq_false_iff_ne, ne_eq]
  omega

lemma ensure_token_of_fresh (st : ClientState) (now : ℚ) (auth : AuthResult)
    (h : token_fresh st now = true) :
    ensure_token st now auth = Except.ok (st, false) := by
  unfold ensure_token
  rw [if_pos h]

lemma post_json_of_fresh (st : ClientState) (now : ℚ)
    (auths : Nat → AuthResult) (posts : Nat → NetAnswer)
    (h : token_fresh st now = true) :
    post_json st now true auths posts =
      post_attempts posts auths true st 5 0 0 (3 / 5) := by
  unfold post_json
  rw [ensure_token_of_fresh st now (auths 0) h]
  rfl

lemma post_json_of_stale_auth (st : ClientState) (now : ℚ)
    (auths : Nat → AuthResult) (posts : Nat → NetAnswer) (tok : String)
    (e : ℚ) (hstale : token_fresh st now = false)
    (ha : auths 0 = AuthResult.ok tok e) :
    post_json st now true auths posts =
      { post_attempts posts auths true
          { token := some tok, expiry := some e } 5 0 1 (3 / 5) with
        authCalls :=
          (post_attempts posts auths true
            { token := some tok, expiry := some e } 5 0 1 (3 / 5)).authCalls
            + 1 } := by
  unfold post_json ensure_token
  rw [hstale, ha]
  rfl

lemma token_fresh_stFresh : token_fresh stFresh 0 = true := by
  have hs : truthy (some "T") = true := by decide
  simp only [token_fresh, stFresh, remaining_validity, hs, Option.isSome_some,
    Bool.true_and, Bool.and_true, decide_eq_true_eq]
  norm_num

/-- C4, counterexample: the claim says that when the single post-reauth retry
also fails — which by its own definition of failure includes a 200 answer
whose body encodes `Error.Code 1001` — the error is raised. On a trace where
every answer is such a 200/1001 body, the retry response is returned as a
success body, not raised. -/
theorem C4_counterexample :
    is2xx resp1001.status = true ∧ body1001 resp1001 = true ∧
    (post_json stNone 0 true authsOk
        (fun _ => NetAnswer.resp resp1001)).result =
      PostResult.body "B1001" ∧
    (post_json stNone 0 true authsOk
        (fun _ => NetAnswer.resp resp1001)).postCalls = 2 := by
  decide

/-- C4, amended: on a token-authenticated request answered by HTTP 401 or by
a 200 body encoding the unauthenticated code, the client performs exactly one
forced re-authentication and exactly one retry of the same request; a
non-2xx retry answer raises the error with no further retries, while any 2xx
retry answer is returned as-is (even when its body again encodes the
unauthenticated code). -/
theorem C4_single_reauth_retry (st : ClientState) (now : ℚ)
    (auths : Nat → AuthResult) (posts : Nat → NetAnswer) (r0 r1 : Resp)
    (tok : String) (e : ℚ)
    (hfresh : token_fresh st now = true)
    (h0 : posts 0 = NetAnswer.resp r0)
    (htrig : r0.status = 401 ∨ (is2xx r0.status = true ∧ body1001 r0 = true))
    (hauth : auths 0 = AuthResult.ok tok e)
    (h1 : posts 1 = NetAnswer.resp r1) :
    (post_json st now true auths posts).authCalls = 1 ∧
    (post_json st now true auths posts).postCalls = 2 ∧
    (is2xx r1.status = true →
      (post_json st now true auths posts).result = PostResult.body r1.payload) ∧
    (is2xx r1.status = false →
      (post_json st now true auths posts).result =
        PostResult.fermaError r1.status r1.payload) := by
  rw [post_json_of_fresh st now auths posts hfresh]
  have hn2xx : (is2xx r0.status && !body1001 r0) = false := by
    rcases htrig with h | ⟨hx, hb⟩
    · rw [h, show is2xx 401 = false from by decide]
      simp
    · rw [hb]
      simp
  have h401 : (if is2xx r0.status = true then (401 : Nat) else r0.status) = 401 := by
    rcases htrig with h | ⟨hx, hb⟩
    · rw [h]
      simp
    · rw [if_pos hx]
  simp only [post_attempts, h0, hn2xx, h401, hauth, Bool.false_eq_true,
    if_false, Nat.zero_add, h1, beq_self_eq_true, Bool.and_true, if_true]
  by_cases hr : is2xx r1.status = true
  · simp [hr]
  · rw [Bool.not_eq_true] at hr
    simp [hr]

/-- C4 witness: a 401 first answer with a valid cached token yields one
re-authentication, one retry and the retried body. -/
theorem C4_single_reauth_retry_witness :
    (post_json stFresh 0 true authsOk posts401).authCalls = 1 ∧
    (post_json stFresh 0 true authsOk posts401).postCalls = 2 ∧
    (post_json stFresh 0 true authsOk posts401).result =
      PostResult.body "B200" := by
  have h := C4_single_reauth_retry stFresh 0 authsOk posts401 (mkResp 401)
    (mkResp 200) "T2" 20000
    token_fresh_stFresh
    rfl (Or.inl rfl) rfl rfl
  exact ⟨h.1, h.2.1, h.2.2.1 (by decide)⟩

/-- C5, counterexample: the claim says every 5xx answer is retried up to 5
attempts with backoff. A 501 answer — a 5xx status outside the code's
transient tuple `(429, 500, 502, 503, 504)` — raises immediately after a
single POST with no backoff sleep. -/
theorem C5_counterexample :
    (post_json stNone 0 true authsOk posts501).result =
      PostResult.fermaError 501 "B501" ∧
    (post_json stNone 0 true authsOk posts501).postCalls = 1 ∧
    (post_json stNone 0 true authsOk posts501).sleeps = [] := by
  decide

/-- C5, amended: the transient class is exactly HTTP 429, 500, 502, 503 and
504: those retry up to 5 attempts total with backoff sleeps 0.6s, 1.2s,
2.4s, 4.8s, raising with the last status and payload on exhaustion, and 4
transient failures followed by a 2xx answer return that answer with `_auth`
called exactly once (the lazy login); any other non-2xx status outside the
401/unauthenticated case — including other 5xx codes such as 501 — raises
immediately after one POST, and a connection/timeout exception propagates
out of the client with no retry at all. -/
theorem C5_transient_retry_policy (st : ClientState) (now : ℚ)
    (auths : Nat → AuthResult) (posts : Nat → NetAnswer) (tok : String)
    (e : ℚ) (hstale : token_fresh st now = false)
    (hauth : auths 0 = AuthResult.ok tok e) :
    (∀ r0 r1 r2 r3 r4 : Resp,
      posts 0 = NetAnswer.resp r0 → posts 1 = NetAnswer.resp r1 →
      posts 2 = NetAnswer.resp r2 → posts 3 = NetAnswer.resp r3 →
      posts 4 = NetAnswer.resp r4 →
      transientStatus r0.status = true → transientStatus r1.status = true →
      transientStatus r2.status = true → transientStatus r3.status = true →
      ((is2xx r4.status = true → body1001 r4 = false →
        (post_json st now true auths posts).result =
          PostResult.body r4.payload ∧
        (post_json st now true auths posts).postCalls = 5 ∧
        (post_json st now true auths posts).authCalls = 1 ∧
        (post_json st now true auths posts).sleeps =
          [3 / 5, 6 / 5, 12 / 5, 24 / 5]) ∧
      (transientStatus r4.status = true →
        (post_json st now true auths posts).result =
          PostResult.fermaError r4.status r4.payload ∧
        (post_json st now true auths posts).postCalls = 5 ∧
        (post_json st now true auths posts).sleeps =
          [3 / 5, 6 / 5, 12 / 5, 24 / 5]))) ∧
    (∀ r : Resp, posts 0 = NetAnswer.resp r →
      transientStatus r.status = false → is2xx r.status = false →
      (r.status == 401) = false →
      (post_json st now true auths posts).result =
        PostResult.fermaError r.status r.payload ∧
      (post_json st now true auths posts).postCalls = 1 ∧
      (post_json st now true auths posts).sleeps = []) ∧
    (∀ exc : String, posts 0 = NetAnswer.raised exc →
      (post_json st now true auths posts).result = PostResult.netRaised exc ∧
      (post_json st now true auths posts).postCalls = 1) := by
  refine ⟨?_, ?_, ?_⟩
  · intro r0 r1 r2 r3 r4 hp0 hp1 hp2 hp3 hp4 ht0 ht1 ht2 ht3
    rw [post_json_of_stale_auth st now auths posts tok e hstale hauth]
    constructor
    · intro hs4 hb4
      simp only [post_attempts, hp0, hp1, hp2, hp3, hp4,
        transient_not2xx _ ht0, transient_not2xx _ ht1,
        transient_not2xx _ ht2, transient_not2xx _ ht3,
        transient_ne401 _ ht0, transient_ne401 _ ht1,
        transient_ne401 _ ht2, transient_ne401 _ ht3,
        ht0, ht1, ht2, ht3, hs4, hb4,
        Bool.false_eq_true, Bool.false_and, Bool.and_true, Bool.not_false,
        Bool.and_false, if_false, if_true, Nat.zero_add, Nat.reduceAdd,
        Nat.reduceBEq]
      norm_num
    · intro ht4
      simp only [post_attempts, hp0, hp1, hp2, hp3, hp4,
        transient_not2xx _ ht0, transient_not2xx _ ht1,
        transient_not2xx _ ht2, transient_not2xx _ ht3,
        transient_not2xx _ ht4,
        transient_ne401 _ ht0, transient_ne401 _ ht1,
        transient_ne401 _ ht2, transient_ne401 _ ht3,
        transient_ne401 _ ht4,
        ht0, ht1, ht2, ht3, ht4,
        Bool.false_eq_true, Bool.false_and, Bool.and_true, Bool.not_false,
        Bool.and_false, if_false, if_true, Nat.zero_add, Nat.reduceAdd,
        Nat.reduceBEq, beq_self_eq_true]
      norm_num
  · intro r hp0 htr hs h401
    rw [post_json_of_stale_auth st now auths posts tok e hstale hauth]
    simp [post_attempts, hp0, htr, hs, h401]
  · intro exc hp0
    rw [post_json_of_stale_auth st now auths posts tok e hstale hauth]
    simp [post_attempts, hp0]

/-- C5 witness: four 503 answers then a 200 succeed with one auth call and
the doubling backoff trace; a 501 answer raises after one POST. -/
theorem C5_transient_retry_policy_witness :
    (post_json stNone 0 true authsOk posts503).result =
      PostResult.body "B200" ∧
    (post_json stNone 0 true authsOk posts503).postCalls = 5 ∧
    (post_json stNone 0 true authsOk posts503).authCalls = 1 ∧
    (post_json stNone 0 true authsOk posts503).sleeps =
      [3 / 5, 6 / 5, 12 / 5, 24 / 5] ∧
    (post_json stNone 0 true authsOk posts501).result =
      PostResult.fermaError 501 "B501" ∧
    (post_json stNone 0 true authsOk posts501).postCalls = 1 := by
  have hA := ((C5_transient_retry_policy stNone 0 authsOk posts503 "T2" 20000
      (by decide) rfl).1 (mkResp 503) (mkResp 503) (mkResp 503) (mkResp 503)
      (mkResp 200) rfl rfl rfl rfl rfl (by decide) (by decide) (by decide)
      (by decide)).1 (by decide) (by decide)
  have hB := (C5_transient_retry_policy stNone 0 authsOk posts501 "T2" 20000
      (by decide) rfl).2.1 (mkResp 501) rfl (by decide) (by decide) (by decide)
  exact ⟨hA.1, hA.2.1, hA.2.2.1, hA.2.2.2, hB.1, hB.2.1⟩

end Shop
